import Mathlib

/-!
Shallow embedding of the dhs-checker-api repository.

The repository has two Python modules:

* `dhs_checker.py` — the scraper core: `check_ids` validates the
  `DHS_USERNAME`/`DHS_PASSWORD` credentials, opens a Playwright browser
  session, logs in (`_login`), runs `_search_id` once per identifier and
  collects the per-identifier dictionaries.
* `main.py` — the FastAPI front end: a CSV upload endpoint `/check_ids/`
  and two single-identifier endpoints `/check_id/` and `/check_id_get/`
  that wrap the scraper.

Browser interactions are modelled by explicit oracles: each Playwright
call that can raise is represented by an `Option String` (the exception
message, when it raises) or an `Except String (Option String)` (the
text-content result).  Resource events (browser launch, context/browser
close, playwright driver stop) are counted in an explicit trace so that
resource-lifecycle claims can be stated.
-/

namespace DhsChecker

/-- Drop leading and trailing whitespace from a character list. -/
def charStrip (l : List Char) : List Char :=
  List.rdropWhile Char.isWhitespace (l.dropWhile Char.isWhitespace)

/-- Python `str.strip()` on the character list of a string: drop leading
and trailing whitespace. -/
def pyStrip (s : String) : String :=
  String.mk (charStrip s.data)

/-- Python truthiness of an `os.getenv` result: `not x` is true for
`None` and for the empty string. -/
def pyFalsy : Option String → Bool
  | none => true
  | some s => s == ""

/-- The dictionary returned by `_search_id` for one identifier:
keys `id_number`, `status`, `debt_counsellor` (lines 118-122). -/
structure SearchResult where
  id_number : String
  status : Option String
  debt_counsellor : Option String
deriving DecidableEq, Repr

/-- Oracle for the Playwright calls made by `_search_id` for one
identifier: `page.fill` (line 88), `page.click` (line 93) and
`page.wait_for_load_state` (line 98) either succeed or raise the given
exception; `page.text_content` on the status cell (line 109) and the
counsellor cell (line 114) either raises or returns an optional string. -/
structure LookupEnv where
  fillExn : Option String
  clickExn : Option String
  waitExn : Option String
  statusText : Except String (Option String)
  counsellorText : Except String (Option String)

/-- The value bound by a `try: x = await page.text_content(sel)
except Exception: x = None` block: an exception is absorbed to `None`. -/
def rawText : Except String (Option String) → Option String
  | .ok t => t
  | .error _ => none

/-- The normalization applied at lines 120-121:
`x.strip() if isinstance(x, str) else None`. -/
def stripField : Option String → Option String
  | some s => some (pyStrip s)
  | none => none

/-- Embedding of `_search_id` (dhs_checker.py lines 62-122): fill the
search input, click Search, wait for network idle — each of these may
raise, and the exception propagates — then extract the two cells with
locally-absorbed failures and return the result dictionary. -/
def search_id (env : LookupEnv) (id_number : String) : Except String SearchResult :=
  match env.fillExn with
  | some m => .error m
  | none =>
    match env.clickExn with
    | some m => .error m
    | none =>
      match env.waitExn with
      | some m => .error m
      | none =>
        .ok { id_number := id_number
            , status := stripField (rawText env.statusText)
            , debt_counsellor := stripField (rawText env.counsellorText) }

/-- Errors surfaced by `check_ids`.  The `RuntimeError` raised for
missing credentials (lines 135-138) is a distinct kind from any
exception raised by the Playwright automation calls. -/
inductive DhsError where
  | configError (msg : String)
  | automationError (msg : String)
deriving DecidableEq, Repr

/-- The message of the credentials `RuntimeError` (lines 136-138). -/
def credsMsg : String :=
  "DHS credentials not set. Please set DHS_USERNAME and DHS_PASSWORD environment variables."

/-- Resource-lifecycle trace of one `check_ids` run: how many times the
browser was launched (line 143), `context.close()` (line 160) and
`browser.close()` (line 161) were invoked, and how many times the
`async with async_playwright()` block stopped the driver on exit. -/
structure BatchTrace where
  sessionsOpened : Nat
  contextCloses : Nat
  browserCloses : Nat
  playwrightStops : Nat
deriving DecidableEq, Repr

/-- Oracle for one `check_ids` run: the browser launch and the `_login`
call may raise, and every identifier has its own lookup oracle. -/
structure BatchEnv where
  launchExn : Option String
  loginExn : Option String
  lookup : String → LookupEnv

/-- The `for id_number in ids` loop of `check_ids` (lines 155-157): run
the lookups in order, appending each result; the first uncaught
exception aborts the loop and the collected results are discarded. -/
def searchLoop (env : BatchEnv) : List String → Except String (List SearchResult)
  | [] => .ok []
  | id :: rest =>
    match search_id (env.lookup id) id with
    | .error m => .error m
    | .ok r =>
      match searchLoop env rest with
      | .error m => .error m
      | .ok rs => .ok (r :: rs)

/-- Credentials as read from the environment: `os.getenv` yields `none`
when the variable is unset. -/
structure Credentials where
  username : Option String
  password : Option String

/-- Embedding of `check_ids` (dhs_checker.py lines 125-163).  Credentials
are validated before the `async with async_playwright()` block, so on the
configuration-error path no browser resource is touched.  Inside the
block, `context.close()` and `browser.close()` run only after the loop
completes normally — they are not in a `finally`, so an exception from
`_login` or from a lookup skips them; the `async with` exit (driver stop)
runs on every path that entered the block. -/
def check_ids (env : BatchEnv) (creds : Credentials) (ids : List String) :
    Except DhsError (List SearchResult) × BatchTrace :=
  if pyFalsy creds.username || pyFalsy creds.password then
    (.error (.configError credsMsg),
     { sessionsOpened := 0, contextCloses := 0, browserCloses := 0, playwrightStops := 0 })
  else
    match env.launchExn with
    | some m =>
      (.error (.automationError m),
       { sessionsOpened := 0, contextCloses := 0, browserCloses := 0, playwrightStops := 1 })
    | none =>
      match env.loginExn with
      | some m =>
        (.error (.automationError m),
         { sessionsOpened := 1, contextCloses := 0, browserCloses := 0, playwrightStops := 1 })
      | none =>
        match searchLoop env ids with
        | .error m =>
          (.error (.automationError m),
           { sessionsOpened := 1, contextCloses := 0, browserCloses := 0, playwrightStops := 1 })
        | .ok rs =>
          (.ok rs,
           { sessionsOpened := 1, contextCloses := 1, browserCloses := 1, playwrightStops := 1 })

/-- A Playwright page interaction, for stating which waits and clicks a
routine performs.  `waitForSelector` is the element-presence wait that
Playwright offers; the repository never calls it. -/
inductive PageAction where
  | goto (url : String) (waitUntil : String)
  | fill (selector : String) (value : String)
  | click (selector : String)
  | waitForLoadState (state : String)
  | waitForSelector (selector : String)
deriving DecidableEq, Repr

/-- Whether an action is an element-presence wait. -/
def PageAction.isSelectorWait : PageAction → Bool
  | .waitForSelector _ => true
  | _ => false

/-- Whether an action clears the search/filter input (a `fill` with the
empty string). -/
def PageAction.clearsFilter : PageAction → Bool
  | .fill _ v => v == ""
  | _ => false

/-- The interaction sequence of `_login` (dhs_checker.py lines 38-59):
navigate to the login page, fill both credential fields, click the login
anchor, then `wait_for_load_state("networkidle")`. -/
def loginActions (username password : String) : List PageAction :=
  [ .goto "https://www.ncrdebthelp.co.za/dhs_Login.aspx" "networkidle"
  , .fill "#cp_pagedata_f_login_username" username
  , .fill "#cp_pagedata_f_login_password" password
  , .click "#cp_pagedata_lb_ProceedLogin"
  , .waitForLoadState "networkidle" ]

/-- The search input selector of `_search_id` (line 85). -/
def searchInputSelector : String :=
  "input[placeholder=\x27ID Number\x27], input[type=\x27search\x27]"

/-- The interaction sequence of `_search_id` (lines 88-98): fill the
search input with the identifier, click Search, wait for network idle.
The extraction that follows performs no further page action, and nothing
runs after it. -/
def searchActions (id_number : String) : List PageAction :=
  [ .fill searchInputSelector id_number
  , .click "text=Search"
  , .waitForLoadState "networkidle" ]

end DhsChecker

namespace Main

open DhsChecker

/-- An HTTP outcome of a single-identifier endpoint: a JSON body or an
`HTTPException` with a status code and detail. -/
inductive HttpOutcome (α : Type) where
  | ok (body : α)
  | httpError (status : Nat) (detail : String)
deriving DecidableEq, Repr

/-- The message of a `DhsError`, as `str(exc)` would render it. -/
def errMsg : DhsError → String
  | .configError m => m
  | .automationError m => m

/-- Embedding of the `/check_id/` endpoint (main.py lines 102-113): call
`dhs_checker.check_ids` on the one-element list, map any exception to a
500, an empty result list to a 404, and otherwise return `results[0]`. -/
def check_id (env : BatchEnv) (creds : Credentials) (id_number : String) :
    HttpOutcome SearchResult :=
  match (check_ids env creds [id_number]).1 with
  | .error e => .httpError 500 (errMsg e)
  | .ok [] => .httpError 404 "ID not found"
  | .ok (r :: _) => .ok r

/-- Embedding of the `/check_id_get/` endpoint (main.py lines 116-127),
identical to `/check_id/` except that the identifier arrives as a query
parameter. -/
def check_id_get (env : BatchEnv) (creds : Credentials) (id_number : String) :
    HttpOutcome SearchResult :=
  match (check_ids env creds [id_number]).1 with
  | .error e => .httpError 500 (errMsg e)
  | .ok [] => .httpError 404 "ID not found"
  | .ok (r :: _) => .ok r

/-- A parsed CSV row as `csv.DictReader` presents it: an association
list from column name to cell, where a missing trailing cell is `none`. -/
def Row : Type := List (String × Option String)

/-- Python `row.get(key)`: the cell for the key, flattened so that both
an absent key and a `None` cell give `none`. -/
def rowGet (row : Row) (key : String) : Option String :=
  match List.lookup key row with
  | some cell => cell
  | none => none

/-- Python `str.lower()` on the character list of a string. -/
def pyLower (s : String) : String :=
  String.mk (s.data.map Char.toLower)

/-- The header-normalization dictionary of main.py line 77, as the list
of `(name.strip().lower(), name)` pairs in header order. -/
def normalizedFields (fieldnames : List String) : List (String × String) :=
  fieldnames.map fun n => (pyLower (pyStrip n), n)

/-- Lines 77-78: `normalized_fields.get("id number")`.  In the dict
comprehension a later header overwrites an earlier one with the same
normalized name, so the lookup runs over the reversed pair list. -/
def idColumnName (fieldnames : List String) : Option String :=
  List.lookup "id number" (normalizedFields fieldnames).reverse

/-- Python truthiness of a cell: `if value:` keeps any non-`None`,
non-empty string — including a whitespace-only one. -/
def pyTruthy : Option String → Bool
  | none => false
  | some s => !(s == "")

/-- Lines 84-88: collect `value.strip()` for every row whose cell for
the id column is truthy. -/
def extractIdNumbers (idCol : String) (rows : List Row) : List String :=
  rows.filterMap fun row =>
    let value := rowGet row idCol
    if pyTruthy value then some (pyStrip (value.getD "")) else none

/-- What the `/check_ids/` endpoint does with a parsed CSV: reject it
with an HTTP 400, or invoke `dhs_checker.check_ids` on the extracted
identifier list. -/
inductive EndpointOutcome where
  | httpError (status : Nat) (detail : String)
  | invokeScraper (ids : List String)
deriving DecidableEq, Repr

/-- Embedding of the CSV-handling part of the `/check_ids/` endpoint
(main.py lines 70-95), from the parsed header (`reader.fieldnames`,
`none` for a headerless file) and rows to the decision of which
identifier list reaches the scraper. -/
def check_ids_endpoint (fieldnames : Option (List String)) (rows : List Row) :
    EndpointOutcome :=
  match fieldnames with
  | none => .httpError 400 "CSV file appears to be empty or missing a header row."
  | some fns =>
    match idColumnName fns with
    | none => .httpError 400 "CSV file must contain a column named \x27ID Number\x27."
    | some col =>
      let ids := extractIdNumbers col rows
      if ids.isEmpty then .httpError 400 "No ID numbers found in the CSV file."
      else .invokeScraper ids

end Main

namespace DhsChecker

/-- A list with no leading matches stays unchanged under `dropWhile`,
and so does any of its prefixes. -/
lemma dropWhile_eq_self_of_front {p : Char → Bool} {l t : List Char}
    (hl : l.dropWhile p = l) (ht : t <+: l) : t.dropWhile p = t := by
  cases t with
  | nil => rfl
  | cons a t2 =>
    obtain ⟨u, hu⟩ := ht
    subst hu
    rw [List.cons_append, List.dropWhile_cons] at hl
    by_cases hpa : p a = true
    · exfalso
      rw [if_pos hpa] at hl
      have hle := (List.dropWhile_suffix (l := t2 ++ u) p).length_le
      rw [hl] at hle
      simp at hle
    · rw [List.dropWhile_cons, if_neg hpa]

/-- Stripping a stripped character list changes nothing. -/
lemma charStrip_idem (l : List Char) : charStrip (charStrip l) = charStrip l := by
  unfold charStrip
  rw [dropWhile_eq_self_of_front (List.dropWhile_idempotent _ _)
        ( List.rdropWhile_prefix _ _),
      List.rdropWhile_idempotent]

/-- Python `strip` is idempotent: stripping a stripped string changes
nothing. -/
lemma pyStrip_idem (s : String) : pyStrip (pyStrip s) = pyStrip s := by
  show String.mk (charStrip (charStrip s.data)) = String.mk (charStrip s.data)
  rw [charStrip_idem]

/-- The fill, click and wait calls of one lookup all succeed. -/
def interactionOk (env : LookupEnv) : Prop :=
  env.fillExn = none ∧ env.clickExn = none ∧ env.waitExn = none

instance (env : LookupEnv) : Decidable (interactionOk env) :=
  inferInstanceAs (Decidable (_ ∧ _ ∧ _))

/-- The result dictionary `_search_id` builds once the fill/click/wait
calls have succeeded, as a function of the extraction oracle. -/
def lookupResult (env : LookupEnv) (id_number : String) : SearchResult :=
  { id_number := id_number
  , status := stripField (rawText env.statusText)
  , debt_counsellor := stripField (rawText env.counsellorText) }

/-- When the page interactions succeed, `_search_id` returns normally
with the extracted-and-normalized fields. -/
lemma search_id_ok (env : LookupEnv) (id_number : String) (h : interactionOk env) :
    search_id env id_number = .ok (lookupResult env id_number) := by
  obtain ⟨hf, hc, hw⟩ := h
  simp [search_id, hf, hc, hw, lookupResult]

/-- Any normal return of `_search_id` is the normalized extraction
result for the input identifier. -/
lemma search_id_ok_shape (env : LookupEnv) (id_number : String) (r : SearchResult)
    (h : search_id env id_number = .ok r) : r = lookupResult env id_number := by
  unfold search_id at h
  cases hf : env.fillExn with
  | some m => simp [hf] at h
  | none =>
    cases hc : env.clickExn with
    | some m => simp [hf, hc] at h
    | none =>
      cases hw : env.waitExn with
      | some m => simp [hf, hc, hw] at h
      | none =>
        simp only [hf, hc, hw] at h
        cases h
        rfl

/-- The identifiers of the results collected by the `for` loop are the
input identifiers, in order. -/
lemma searchLoop_ok_ids (env : BatchEnv) :
    ∀ ids rs, searchLoop env ids = .ok rs → rs.map SearchResult.id_number = ids := by
  intro ids
  induction ids with
  | nil =>
    intro rs h
    simp [searchLoop] at h
    simp [← h]
  | cons id rest ih =>
    intro rs h
    unfold searchLoop at h
    cases hs : search_id (env.lookup id) id with
    | error m => rw [hs] at h; simp at h
    | ok r =>
      rw [hs] at h
      cases hrest : searchLoop env rest with
      | error m => rw [hrest] at h; simp at h
      | ok rs2 =>
        rw [hrest] at h
        cases h
        have hr := search_id_ok_shape (env.lookup id) id r hs
        simp [List.map_cons, ih rs2 hrest, hr, lookupResult]

/-- When every lookup's page interactions succeed, the loop collects one
normalized result per identifier, in order. -/
lemma searchLoop_all_ok (env : BatchEnv) :
    ∀ ids, (∀ i ∈ ids, interactionOk (env.lookup i)) →
      searchLoop env ids = .ok (ids.map fun i => lookupResult (env.lookup i) i) := by
  intro ids
  induction ids with
  | nil => intro _; rfl
  | cons id rest ih =>
    intro hall
    have h1 := search_id_ok (env.lookup id) id (hall id (by simp))
    have h2 := ih fun i hi => hall i (by simp [hi])
    simp [searchLoop, h1, h2]

/-- A normal return of `check_ids` is a normal return of the lookup
loop. -/
lemma check_ids_ok_loop (env : BatchEnv) (creds : Credentials) (ids : List String)
    (rs : List SearchResult) (h : (check_ids env creds ids).1 = .ok rs) :
    searchLoop env ids = .ok rs := by
  unfold check_ids at h
  split at h
  · simp at h
  · split at h
    · simp at h
    · split at h
      · simp at h
      · split at h
        · simp at h
        · rename_i heq
          simp at h
          rw [heq, h]

/-- When credentials are present, launch and login succeed and every
lookup's page interactions succeed, `check_ids` returns normally with
one normalized result per identifier. -/
lemma check_ids_all_ok (env : BatchEnv) (creds : Credentials) (ids : List String)
    (hu : pyFalsy creds.username = false) (hp : pyFalsy creds.password = false)
    (hl : env.launchExn = none) (hlog : env.loginExn = none)
    (hall : ∀ i ∈ ids, interactionOk (env.lookup i)) :
    (check_ids env creds ids).1
      = .ok (ids.map fun i => lookupResult (env.lookup i) i) := by
  simp [check_ids, hu, hp, hl, hlog, searchLoop_all_ok env ids hall]

/-- A lookup oracle where every interaction succeeds and both cells hold
text (the full-success fixture of the spec's test list). -/
def okLookup : LookupEnv :=
  { fillExn := none, clickExn := none, waitExn := none
  , statusText := .ok (some "Under Review")
  , counsellorText := .ok (some "  Acme Debt Counsellors  ") }

/-- A lookup oracle for an identifier with no matching row: both
`text_content` calls time out waiting for their selectors. -/
def notFoundLookup : LookupEnv :=
  { fillExn := none, clickExn := none, waitExn := none
  , statusText := .error "TimeoutError: Timeout 30000ms exceeded."
  , counsellorText := .error "TimeoutError: Timeout 30000ms exceeded." }

/-- A batch oracle where launch, login and every lookup succeed. -/
def okBatchEnv : BatchEnv :=
  { launchExn := none, loginExn := none, lookup := fun _ => okLookup }

/-- A batch oracle where the browser launches but `_login` raises. -/
def loginFailEnv : BatchEnv :=
  { launchExn := none
  , loginExn := some "TimeoutError: Timeout 30000ms exceeded."
  , lookup := fun _ => okLookup }

/-- Credentials with both environment variables set. -/
def goodCreds : Credentials := { username := some "user", password := some "pass" }

/-- Credentials with `DHS_USERNAME` unset. -/
def noUserCreds : Credentials := { username := none, password := some "pass" }

end DhsChecker

namespace DhsChecker

/-- C1: every run of `check_ids` that returns normally yields exactly one
result per input identifier, in input order, with the i-th result's
`id_number` equal to the i-th input identifier. -/
theorem check_ids_preserves_input_order (env : BatchEnv) (creds : Credentials)
    (ids : List String) (rs : List SearchResult)
    (h : (check_ids env creds ids).1 = .ok rs) :
    rs.length = ids.length ∧ rs.map SearchResult.id_number = ids := by
  have hmap := searchLoop_ok_ids env ids rs (check_ids_ok_loop env creds ids rs h)
  refine ⟨?_, hmap⟩
  calc rs.length = (rs.map SearchResult.id_number).length := (List.length_map _ _).symm
    _ = ids.length := by rw [hmap]

/-- C1 witness: a concrete two-identifier run returning normally, with
matching length and identifiers. -/
theorem check_ids_preserves_input_order_witness :
    ([ { id_number := "7001015009088", status := some "Under Review"
       , debt_counsellor := some "Acme Debt Counsellors" }
     , { id_number := "9001015800086", status := some "Under Review"
       , debt_counsellor := some "Acme Debt Counsellors" } ] :
        List SearchResult).length = 2 ∧
    ([ { id_number := "7001015009088", status := some "Under Review"
       , debt_counsellor := some "Acme Debt Counsellors" }
     , { id_number := "9001015800086", status := some "Under Review"
       , debt_counsellor := some "Acme Debt Counsellors" } ] :
        List SearchResult).map SearchResult.id_number
      = ["7001015009088", "9001015800086"] :=
  check_ids_preserves_input_order okBatchEnv goodCreds
    ["7001015009088", "9001015800086"] _ rfl

/-- C2: with a missing or empty username or password, `check_ids` fails
with the distinct configuration-error kind, the browser is never
launched and the playwright block is never entered. -/
theorem missing_credentials_fail_before_launch (env : BatchEnv)
    (creds : Credentials) (ids : List String)
    (h : pyFalsy creds.username = true ∨ pyFalsy creds.password = true) :
    (check_ids env creds ids).1 = .error (.configError credsMsg) ∧
    (check_ids env creds ids).2.sessionsOpened = 0 ∧
    (check_ids env creds ids).2.playwrightStops = 0 := by
  have hcond : (pyFalsy creds.username || pyFalsy creds.password) = true := by
    rcases h with h | h <;> simp [h]
  simp [check_ids, hcond]

/-- C2 witness: with `DHS_USERNAME` unset the configuration error
surfaces and no browser resource is touched. -/
theorem missing_credentials_fail_before_launch_witness :
    (check_ids okBatchEnv noUserCreds ["123"]).1 = .error (.configError credsMsg) ∧
    (check_ids okBatchEnv noUserCreds ["123"]).2.sessionsOpened = 0 ∧
    (check_ids okBatchEnv noUserCreds ["123"]).2.playwrightStops = 0 :=
  missing_credentials_fail_before_launch okBatchEnv noUserCreds ["123"] (Or.inl rfl)

/-- C5: evaluation at the failing input.  When `_login` raises after the
browser was launched, `context.close()` and `browser.close()` are never
invoked — they are not in a `finally` block, so the claimed
exactly-once teardown does not happen on the error path (only the
`async with async_playwright()` exit runs). -/
theorem close_skipped_when_login_fails :
    (check_ids loginFailEnv goodCreds ["123"]).1
        = .error (.automationError "TimeoutError: Timeout 30000ms exceeded.") ∧
    (check_ids loginFailEnv goodCreds ["123"]).2.sessionsOpened = 1 ∧
    (check_ids loginFailEnv goodCreds ["123"]).2.contextCloses = 0 ∧
    (check_ids loginFailEnv goodCreds ["123"]).2.browserCloses = 0 := by
  refine ⟨rfl, rfl, rfl, rfl⟩

/-- C6 counterexample: the interaction trace of `_login` contains no
element-presence wait at all — after clicking the login anchor it waits
merely for the network-idle load state — and a login failure surfaces as
the raw automation exception, not a distinct authentication-error
kind. -/
theorem login_has_no_element_wait :
    ((loginActions "user" "pass").all fun a => !(a.isSelectorWait)) = true ∧
    (loginActions "user" "pass").getLast? = some (.waitForLoadState "networkidle") ∧
    (check_ids loginFailEnv goodCreds ["123"]).1
        = .error (.automationError "TimeoutError: Timeout 30000ms exceeded.") :=
  ⟨rfl, rfl, rfl⟩

/-- C6 amended: `_login` submits the credentials and then waits only for
the network-idle load state; its trace contains no post-login
element-presence wait. -/
theorem login_waits_only_for_network_idle (username password : String) :
    ((loginActions username password).all fun a => !(a.isSelectorWait)) = true ∧
    (loginActions username password).getLast?
      = some (.waitForLoadState "networkidle") :=
  ⟨rfl, rfl⟩

/-- C7: when no matching row appears — both cell extractions find
nothing within their waits — `_search_id` returns normally with the
input identifier and both fields absent. -/
theorem row_not_found_returns_empty_fields (env : LookupEnv) (id_number : String)
    (hf : env.fillExn = none) (hc : env.clickExn = none) (hw : env.waitExn = none)
    (hs : rawText env.statusText = none) (hd : rawText env.counsellorText = none) :
    search_id env id_number
      = .ok { id_number := id_number, status := none, debt_counsellor := none } := by
  simp [search_id, hf, hc, hw, hs, hd, stripField]

/-- C7 witness: the spec's no-record fixture identifier with both
selector waits timing out. -/
theorem row_not_found_returns_empty_fields_witness :
    search_id notFoundLookup "9001015800086"
      = .ok { id_number := "9001015800086", status := none
            , debt_counsellor := none } :=
  row_not_found_returns_empty_fields notFoundLookup "9001015800086"
    rfl rfl rfl rfl rfl

/-- A lookup oracle where the status extraction raises but the
counsellor extraction succeeds. -/
def statusFailLookup : LookupEnv :=
  { fillExn := none, clickExn := none, waitExn := none
  , statusText := .error "element moved"
  , counsellorText := .ok (some "  Acme Debt Counsellors  ") }

/-- A lookup oracle where the counsellor extraction raises but the
status extraction succeeds. -/
def counsellorFailLookup : LookupEnv :=
  { fillExn := none, clickExn := none, waitExn := none
  , statusText := .ok (some "Under Review")
  , counsellorText := .error "frame detached" }

/-- A batch oracle where one identifier's status extraction fails,
another identifier's counsellor extraction fails, and every other
lookup fully succeeds. -/
def mixedBatchEnv : BatchEnv :=
  { launchExn := none, loginExn := none
  , lookup := fun i =>
      if i = "8001015009087" then statusFailLookup
      else if i = "9001015800086" then counsellorFailLookup
      else okLookup }

/-- C3 counterexample: a status cell holding only whitespace is trimmed
to the empty string and returned as a present empty string, not mapped
to `None` — so a Result field can be an empty string. -/
theorem empty_after_trim_is_present_empty_string :
    search_id
        { fillExn := none, clickExn := none, waitExn := none
        , statusText := .ok (some "   "), counsellorText := .ok none }
        "8001015009087"
      = .ok { id_number := "8001015009087", status := some ""
            , debt_counsellor := none } ∧
    (some "" : Option String) ≠ none := by
  constructor
  · rfl
  · simp

/-- C3 amended: extracted text is trimmed of surrounding whitespace and
an absent extraction result stays absent, but text that is empty after
trimming yields a present empty string; so every present field is a
trimmed (possibly empty) string. -/
theorem search_id_fields_trimmed (env : LookupEnv) (id_number : String)
    (r : SearchResult) (h : search_id env id_number = .ok r) :
    r.status.map pyStrip = r.status ∧
    r.debt_counsellor.map pyStrip = r.debt_counsellor := by
  have hr := search_id_ok_shape env id_number r h
  subst hr
  constructor
  · cases hs : rawText env.statusText <;>
      simp [lookupResult, stripField, hs, pyStrip_idem]
  · cases hd : rawText env.counsellorText <;>
      simp [lookupResult, stripField, hd, pyStrip_idem]

/-- C3 amended witness: the full-success fixture, whose padded
counsellor text comes back trimmed. -/
theorem search_id_fields_trimmed_witness :
    (some "Under Review" : Option String).map pyStrip = some "Under Review" ∧
    (some "Acme Debt Counsellors" : Option String).map pyStrip
      = some "Acme Debt Counsellors" :=
  search_id_fields_trimmed okLookup "7001015009088"
    { id_number := "7001015009088", status := some "Under Review"
    , debt_counsellor := some "Acme Debt Counsellors" } rfl

/-- C4: once a lookup's page interactions succeed, the two extraction
outcomes are left completely unconstrained — either `text_content` call
may raise with any message — and still the batch returns normally with
one result per identifier; in the affected identifier's result, any
field whose extraction raised is left absent.  (If either try/except of
lines 108-116 were missing, the exception would abort the batch and the
normal-return conclusion here would be false.) -/
theorem extraction_failure_is_contained (env : BatchEnv) (creds : Credentials)
    (pre : List String) (id_number : String) (post : List String)
    (hu : pyFalsy creds.username = false) (hp : pyFalsy creds.password = false)
    (hl : env.launchExn = none) (hlog : env.loginExn = none)
    (hall : ∀ i ∈ pre ++ id_number :: post, interactionOk (env.lookup i)) :
    ∃ rs r, (check_ids env creds (pre ++ id_number :: post)).1 = .ok rs ∧
      rs.length = (pre ++ id_number :: post).length ∧
      rs[pre.length]? = some r ∧ r.id_number = id_number ∧
      (∀ m, (env.lookup id_number).statusText = .error m → r.status = none) ∧
      (∀ m, (env.lookup id_number).counsellorText = .error m →
        r.debt_counsellor = none) := by
  refine ⟨_, lookupResult (env.lookup id_number) id_number,
    check_ids_all_ok env creds _ hu hp hl hlog hall, ?_, ?_, rfl, ?_, ?_⟩
  · simp
  · rw [List.getElem?_map, List.getElem?_append_right (le_refl _)]
    simp
  · intro m hm
    simp [lookupResult, hm, rawText, stripField]
  · intro m hm
    simp [lookupResult, hm, rawText, stripField]

/-- C4 witness: a three-identifier batch in which the second lookup's
status extraction raises and the third lookup's counsellor extraction
raises; the batch returns all three results and each failure degrades
exactly the corresponding field of the affected identifier. -/
theorem extraction_failure_is_contained_witness :
    (∃ rs r, (check_ids mixedBatchEnv goodCreds
        ["7001015009088", "8001015009087", "9001015800086"]).1 = .ok rs ∧
      rs.length = 3 ∧ rs[1]? = some r ∧ r.id_number = "8001015009087" ∧
      r.status = none) ∧
    (∃ rs r, (check_ids mixedBatchEnv goodCreds
        ["7001015009088", "8001015009087", "9001015800086"]).1 = .ok rs ∧
      rs.length = 3 ∧ rs[2]? = some r ∧ r.id_number = "9001015800086" ∧
      r.debt_counsellor = none) := by
  constructor
  · obtain ⟨rs, r, h1, h2, h3, h4, h5, h6⟩ :=
      extraction_failure_is_contained mixedBatchEnv goodCreds
        ["7001015009088"] "8001015009087" ["9001015800086"]
        rfl rfl rfl rfl (by decide)
    exact ⟨rs, r, h1, h2, h3, h4, h5 "element moved" rfl⟩
  · obtain ⟨rs, r, h1, h2, h3, h4, h5, h6⟩ :=
      extraction_failure_is_contained mixedBatchEnv goodCreds
        ["7001015009088", "8001015009087"] "9001015800086" []
        rfl rfl rfl rfl (by decide)
    exact ⟨rs, r, h1, h2, h3, h4, h6 "frame detached" rfl⟩

/-- C8 counterexample: the interaction trace of a lookup contains no
action that clears the filter input, and nothing at all runs after the
post-search wait — there is no restore-to-baseline step before the next
identifier's lookup. -/
theorem search_has_no_reset_step :
    ((searchActions "9001015800086").any PageAction.clearsFilter) = false ∧
    (searchActions "9001015800086").getLast?
      = some (.waitForLoadState "networkidle") :=
  ⟨rfl, rfl⟩

/-- C8 amended: a lookup performs no explicit reset: its trace contains
no filter-clearing action, ends at the post-search wait, and the only
state normalization between identifiers is that the next lookup's first
action overwrites the filter input with the new identifier. -/
theorem search_never_resets_between_lookups (id_number : String)
    (h : id_number ≠ "") :
    ((searchActions id_number).any PageAction.clearsFilter) = false ∧
    (searchActions id_number).head? = some (.fill searchInputSelector id_number) ∧
    (searchActions id_number).getLast? = some (.waitForLoadState "networkidle") := by
  refine ⟨?_, rfl, rfl⟩
  simp [searchActions, PageAction.clearsFilter, h]

/-- C8 amended witness: the no-record fixture identifier. -/
theorem search_never_resets_between_lookups_witness :
    ((searchActions "9001015800086").any PageAction.clearsFilter) = false ∧
    (searchActions "9001015800086").head?
      = some (.fill searchInputSelector "9001015800086") ∧
    (searchActions "9001015800086").getLast?
      = some (.waitForLoadState "networkidle") :=
  search_never_resets_between_lookups "9001015800086" (by decide)

/-- C9: both single-identifier endpoints wrap the batch call on the
one-element list: whenever that batch call returns normally, its result
list is a singleton whose only element — carrying the input identifier —
is exactly what the endpoints return. -/
theorem check_id_wraps_check_ids (env : BatchEnv) (creds : Credentials)
    (id_number : String) (rs : List SearchResult)
    (h : (check_ids env creds [id_number]).1 = .ok rs) :
    ∃ r, rs = [r] ∧ r.id_number = id_number ∧
      Main.check_id env creds id_number = .ok r ∧
      Main.check_id_get env creds id_number = .ok r := by
  have hmap := searchLoop_ok_ids env [id_number] rs (check_ids_ok_loop env creds _ rs h)
  cases rs with
  | nil => simp at hmap
  | cons r rest =>
    cases rest with
    | nil =>
      simp at hmap
      exact ⟨r, rfl, hmap, by simp [Main.check_id, h], by simp [Main.check_id_get, h]⟩
    | cons r2 rest2 => simp at hmap

/-- C9 witness: a concrete identifier run through the one-element batch
and both endpoints. -/
theorem check_id_wraps_check_ids_witness :
    ∃ r, ([ { id_number := "7001015009088", status := some "Under Review"
            , debt_counsellor := some "Acme Debt Counsellors" } ] :
          List SearchResult) = [r] ∧ r.id_number = "7001015009088" ∧
      Main.check_id okBatchEnv goodCreds "7001015009088" = .ok r ∧
      Main.check_id_get okBatchEnv goodCreds "7001015009088" = .ok r :=
  check_id_wraps_check_ids okBatchEnv goodCreds "7001015009088" _ rfl

/-- Whatever `List.lookup` finds was a pair in the list. -/
lemma lookup_eq_some_mem {β : Type} (key : String) (v : β) :
    ∀ l : List (String × β), List.lookup key l = some v → (key, v) ∈ l := by
  intro l
  induction l with
  | nil => intro h; simp [List.lookup] at h
  | cons p t ih =>
    intro h
    obtain ⟨k, b⟩ := p
    rw [List.lookup_cons] at h
    cases hk : key == k with
    | true =>
      rw [hk] at h
      cases h
      have hkk : key = k := eq_of_beq hk
      subst hkk
      exact List.mem_cons_self _ _
    | false =>
      rw [hk] at h
      exact List.mem_cons_of_mem _ (ih h)

/-- C10 counterexample: a CSV whose only data row holds a
whitespace-only ID cell passes the `if value:` filter, is stripped to
the empty string, and the scraper is invoked with `[""]` — an empty
identifier reaches the scraper from this endpoint. -/
theorem whitespace_cell_reaches_scraper :
    Main.check_ids_endpoint (some ["ID Number"]) [[("ID Number", some "   ")]]
      = .invokeScraper [""] := by
  rfl

/-- C10 amended: the header is matched case-insensitively ignoring
surrounding whitespace; rows whose ID cell is missing or empty are
skipped and the extracted IDs are stripped; the scraper is never invoked
with an empty list (a 400 is returned instead) — but a whitespace-only
cell survives the filter and yields an empty identifier. -/
theorem endpoint_ids_nonempty_and_trimmed (fns : List String)
    (rows : List Main.Row) :
    (∀ col, Main.idColumnName fns = some col →
        col ∈ fns ∧ Main.pyLower (pyStrip col) = "id number") ∧
    (∀ ids, Main.check_ids_endpoint (some fns) rows = .invokeScraper ids →
        ids ≠ [] ∧ (ids.all fun s => pyStrip s == s) = true) := by
  constructor
  · intro col hcol
    have hmem := lookup_eq_some_mem _ _ _ hcol
    rw [List.mem_reverse, Main.normalizedFields, List.mem_map] at hmem
    obtain ⟨n, hn, heq⟩ := hmem
    have h1 : Main.pyLower (pyStrip n) = "id number" := congrArg Prod.fst heq
    have h2 : n = col := congrArg Prod.snd heq
    subst h2
    exact ⟨hn, h1⟩
  · intro ids hids
    simp only [Main.check_ids_endpoint] at hids
    split at hids
    · exact absurd hids (by simp)
    · rename_i col hcol2
      split at hids
      · exact absurd hids (by simp)
      · rename_i hemp
        cases hids
        refine ⟨fun hnil => hemp (List.isEmpty_iff.mpr hnil), ?_⟩
        rw [List.all_eq_true]
        intro s hs
        rw [Main.extractIdNumbers, List.mem_filterMap] at hs
        obtain ⟨row, _, hrow⟩ := hs
        simp only at hrow
        by_cases ht : Main.pyTruthy (Main.rowGet row col) = true
        · rw [if_pos ht] at hrow
          cases hrow
          simp [pyStrip_idem]
        · rw [if_neg ht] at hrow
          exact absurd hrow (by simp)

/-- C10 amended witness: a one-row CSV with a padded ID cell yields the
non-empty, stripped identifier list. -/
theorem endpoint_ids_nonempty_and_trimmed_witness :
    (["123"] : List String) ≠ [] ∧
    ((["123"] : List String).all fun s => pyStrip s == s) = true :=
  (endpoint_ids_nonempty_and_trimmed ["ID Number"]
      [[("ID Number", some " 123 ")]]).2 ["123"] rfl

end DhsChecker

